import Mathlib

/-!
Verification of the preptools transaction construction, signing-confirmation
and dual-mode (read/write) RPC dispatch layer, a shallow embedding of
`preptools/prep.py`.

External collaborators (the iconsdk RPC client, the wallet/keystore, console
I/O, config-file loading) are modelled abstractly: the RPC client is a record
of response functions, console I/O and process exit are recorded in an
explicit effect trace, and interactive input is passed in as a value.
Python dictionaries built by `to_dict()` are identified with the structures
they render.
-/

namespace Preptools

/-- Parameter mapping of a governance call (a Python dict of strings). -/
abbrev Params := List (String × String)

/-- Modelled from the spec: the fixed governance contract address all PRep
management calls are sent to.  In the code the constant `ZERO_ADDRESS`
(imported from `utils.constants`, a file not under `src/`) holds it; the spec
calls it a protocol constant, not configurable. -/
def ZERO_ADDRESS : String := "cx0000000000000000000000000000000000000000"

/-- The spec name for the recipient of every governance call; the code routes
them to `ZERO_ADDRESS`. -/
def GOVERNANCE_ADDRESS : String := ZERO_ADDRESS

/-- Modelled from the spec: the fixed zero/EOA placeholder address used as the
default query sender (`EOA_ADDRESS` in `utils.constants`, not under `src/`). -/
def EOA_ADDRESS : String := "hx0000000000000000000000000000000000000000"

/-- A wallet handle (the iconsdk `KeyWallet` collaborator): the only part of
it this layer consults is `get_address()`; signing itself is opaque. -/
structure Wallet where
  address : String
deriving DecidableEq, Repr

/-- `owner.get_address()`. -/
def Wallet.get_address (w : Wallet) : String := w.address

/-- The transaction envelope built by `CallTransactionBuilder` in
`TxHandler._call_tx`: from/to routing, step limit, protocol version, network
id, method, params and transferred value. -/
structure Transaction where
  from_ : String
  to_ : String
  stepLimit : Nat
  version : Nat
  nid : Nat
  method : String
  params : Params
  value : Nat
deriving DecidableEq, Repr

/-- A signed envelope: `SignedTransaction(transaction, owner)`; the signature
itself is opaque to this layer, so the record keeps the inputs. -/
structure SignedTransaction where
  transaction : Transaction
  signer : Wallet
deriving DecidableEq, Repr

/-- The read-only query envelope built by `CallBuilder` in
`PrepReader._call`. -/
structure Call where
  from_ : String
  to_ : String
  method : String
  params : Option Params
deriving DecidableEq, Repr

/-- Console effects a registered hook may perform (the hooks in this code
only print and read from the terminal). -/
inductive ConsoleEffect where
  | printLine (s : String)
  | printDictTx (t : Transaction)
  | printDictCall (c : Call)
  | readLine (prompt : String)
deriving DecidableEq, Repr

/-- Observable effects of a dispatcher run: hook invocations, signing,
network calls, console I/O and process exit. -/
inductive Effect where
  | hookTx (t : Transaction)
  | hookCall (c : Call)
  | sign (t : Transaction)
  | sendTx (s : SignedTransaction)
  | rpcQuery (c : Call)
  | rpcGetTxResult (h : String)
  | rpcGetTx (h : String)
  | printLine (s : String)
  | printDictTx (t : Transaction)
  | printDictCall (c : Call)
  | readLine (prompt : String)
  | exitProc (code : Nat)
deriving DecidableEq, Repr

/-- Inject a hook's console effect into the full effect alphabet. -/
def ConsoleEffect.toEffect : ConsoleEffect → Effect
  | .printLine s => .printLine s
  | .printDictTx t => .printDictTx t
  | .printDictCall c => .printDictCall c
  | .readLine p => .readLine p

def Effect.isSign : Effect → Bool
  | .sign _ => true
  | _ => false

def Effect.isSendTx : Effect → Bool
  | .sendTx _ => true
  | _ => false

def Effect.isHookTx : Effect → Bool
  | .hookTx _ => true
  | _ => false

def Effect.isHookCall : Effect → Bool
  | .hookCall _ => true
  | _ => false

/-- Any outbound network call of the RPC client. -/
def Effect.isNetwork : Effect → Bool
  | .sendTx _ => true
  | .rpcQuery _ => true
  | .rpcGetTxResult _ => true
  | .rpcGetTx _ => true
  | _ => false

/-- RPC responses are opaque JSON payloads to this layer. -/
abbrev RpcResult := String

/-- The external RPC client collaborator (iconsdk `IconService`): response
functions for `send_transaction`, `call`, `get_transaction_result` and
`get_transaction`. -/
structure IconService where
  send_transaction : SignedTransaction → RpcResult
  call : Call → RpcResult
  get_transaction_result : String → RpcResult
  get_transaction : String → RpcResult

/-- A registered write-path hook: given the built envelope it may perform
console I/O and returns the approve/abort boolean. -/
abbrev TxHook := Transaction → List ConsoleEffect × Bool

/-- A registered read-path hook: `PrepReader._call` discards its return
value, which is kept here to model an arbitrary registered callable. -/
abbrev CallHook := Call → List ConsoleEffect × Bool

/-- `TxHandler`: icon service handle, network id, and the single hook slot. -/
structure TxHandler where
  icon_service : IconService
  nid : Nat
  on_send_request : Option TxHook

/-- The envelope `TxHandler._call_tx` builds via `CallTransactionBuilder`:
sender from the owner wallet, given recipient/limit/method/params/value,
protocol version fixed at 3, network id from the handler. -/
def TxHandler.build_tx (h : TxHandler) (owner : Wallet) (to_ : String)
    (method : String) (params : Params) (limit : Nat) (value : Nat) : Transaction :=
  { from_ := owner.get_address
    to_ := to_
    stepLimit := limit
    version := 3
    nid := h.nid
    method := method
    params := params
    value := value }

/-- `TxHandler._call_on_send_request`: invoke the registered hook on the
envelope and return its boolean; with no hook registered, return `False`
(Python's `if self._on_send_request:` guard). -/
def TxHandler.call_on_send_request (h : TxHandler) (content : Transaction) :
    List Effect × Bool :=
  match h.on_send_request with
  | some f =>
    let r := f content
    (Effect.hookTx content :: r.1.map ConsoleEffect.toEffect, r.2)
  | none => ([], false)

/-- `TxHandler._call_tx`: build the envelope, consult the hook; on refusal
return nothing, on approval sign (`SignedTransaction(transaction, owner)`)
and dispatch via `send_transaction`, returning the client's response. -/
def TxHandler.call_tx (h : TxHandler) (owner : Wallet) (to_ : String)
    (method : String) (params : Params) (limit : Nat) (value : Nat) :
    List Effect × Option RpcResult :=
  let transaction := h.build_tx owner to_ method params limit value
  let r := h.call_on_send_request transaction
  if r.2 then
    let stx : SignedTransaction := ⟨transaction, owner⟩
    (r.1 ++ [Effect.sign transaction, Effect.sendTx stx],
     some (h.icon_service.send_transaction stx))
  else
    (r.1, none)

/-- `TxHandler.call` (public entry; `PrepWriter._call` always supplies the
arguments explicitly, so they are positional here). -/
def TxHandler.call (h : TxHandler) (owner : Wallet) (to_ : String)
    (method : String) (params : Params) (limit : Nat) (value : Nat) :
    List Effect × Option RpcResult :=
  h.call_tx owner to_ method params limit value

/-- Default step limit of `TxHandler.call` (`limit=0x50000000`), unused by
the four write operations which go through `PrepWriter._call`. -/
def TXHANDLER_DEFAULT_STEP_LIMIT : Nat := 0x50000000

/-- Default step limit of `PrepWriter._call` (`step_limit: int = 0x10000000`). -/
def DEFAULT_STEP_LIMIT : Nat := 0x10000000

/-- Fixed registration stake: `value=2000*10**18` in `register_prep`. -/
def REGISTER_STAKE : Nat := 2000 * 10 ^ 18

/-- `PrepWriter` (a `PrepListener` with service, owner wallet and nid);
the inherited single callback slot `_on_send_request` starts as `None` and
`set_on_send_request` replaces it. -/
structure PrepWriter where
  icon_service : IconService
  owner : Wallet
  nid : Nat
  on_send_request : Option TxHook

/-- `PrepListener.set_on_send_request` on the writer. -/
def PrepWriter.set_on_send_request (w : PrepWriter) (f : TxHook) : PrepWriter :=
  { w with on_send_request := some f }

/-- `PrepWriter._create_tx_handler`: a fresh `TxHandler` carrying the
writer's service, nid and current hook. -/
def PrepWriter.create_tx_handler (w : PrepWriter) : TxHandler :=
  ⟨w.icon_service, w.nid, w.on_send_request⟩

/-- `PrepWriter._call`: dispatch through a fresh handler, recipient fixed to
`ZERO_ADDRESS`; `step_limit` defaults to `0x10000000` and `value` to `0` at
the call sites below. -/
def PrepWriter.call (w : PrepWriter) (method : String) (params : Params)
    (step_limit : Nat) (value : Nat) : List Effect × Option RpcResult :=
  let tx_handler := w.create_tx_handler
  tx_handler.call w.owner ZERO_ADDRESS method params step_limit value

/-- `PrepWriter.register_prep`: method `registerPRep`, default step limit,
`value=2000*10**18`. -/
def PrepWriter.register_prep (w : PrepWriter) (params : Params) :
    List Effect × Option RpcResult :=
  w.call "registerPRep" params DEFAULT_STEP_LIMIT REGISTER_STAKE

/-- `PrepWriter.unregister_prep`: method `unregisterPRep`, empty params,
defaults for step limit and value. -/
def PrepWriter.unregister_prep (w : PrepWriter) :
    List Effect × Option RpcResult :=
  w.call "unregisterPRep" [] DEFAULT_STEP_LIMIT 0

/-- `PrepWriter.set_prep`: method `setPRep`, defaults. -/
def PrepWriter.set_prep (w : PrepWriter) (params : Params) :
    List Effect × Option RpcResult :=
  w.call "setPRep" params DEFAULT_STEP_LIMIT 0

/-- `PrepWriter.set_governance_variables`: method `setGovernanceVariables`,
defaults. -/
def PrepWriter.set_governance_variables (w : PrepWriter) (params : Params) :
    List Effect × Option RpcResult :=
  w.call "setGovernanceVariables" params DEFAULT_STEP_LIMIT 0

/-- A Python-level exception surfaced by the embedding: calling the `None`
callback slot raises `TypeError`. -/
inductive PyError where
  | noneNotCallable
deriving DecidableEq, Repr

/-- `PrepReader` (a `PrepListener` with service, nid and a query sender
defaulting to `EOA_ADDRESS`). -/
structure PrepReader where
  icon_service : IconService
  nid : Nat
  from_ : String
  on_send_request : Option CallHook

/-- `PrepListener.set_on_send_request` on the reader. -/
def PrepReader.set_on_send_request (r : PrepReader) (f : CallHook) : PrepReader :=
  { r with on_send_request := some f }

/-- `PrepReader._call`: build the query envelope, invoke
`self.on_send_request(call.to_dict())` directly (no `None` guard: a `None`
slot raises before any dispatch), discard its result, then dispatch via the
RPC client's `call`. -/
def PrepReader.call (r : PrepReader) (method : String) (params : Option Params) :
    List Effect × Except PyError RpcResult :=
  let c : Call := { from_ := r.from_, to_ := ZERO_ADDRESS, method := method, params := params }
  match r.on_send_request with
  | none => ([], .error .noneNotCallable)
  | some f =>
    (Effect.hookCall c :: (f c).1.map ConsoleEffect.toEffect ++ [Effect.rpcQuery c],
     .ok (r.icon_service.call c))

/-- `PrepReader.get_prep`: method `getPRep` with `{"address": address}`. -/
def PrepReader.get_prep (r : PrepReader) (address : String) :
    List Effect × Except PyError RpcResult :=
  r.call "getPRep" (some [("address", address)])

/-- `PrepReader.get_preps`: method `getPReps` with the given params. -/
def PrepReader.get_preps (r : PrepReader) (params : Option Params) :
    List Effect × Except PyError RpcResult :=
  r.call "getPReps" params

/-- `PrepReader.get_tx_result` via `_tx_result`: a pass-through lookup, no
hook invocation. -/
def PrepReader.get_tx_result (r : PrepReader) (tx_hash : String) :
    List Effect × Except PyError RpcResult :=
  ([Effect.rpcGetTxResult tx_hash], .ok (r.icon_service.get_transaction_result tx_hash))

/-- `PrepReader.get_tx_by_hash` via `_tx_by_hash`: likewise hook-free. -/
def PrepReader.get_tx_by_hash (r : PrepReader) (tx_hash : String) :
    List Effect × Except PyError RpcResult :=
  ([Effect.rpcGetTx tx_hash], .ok (r.icon_service.get_transaction tx_hash))

/-- `_print_request(title, content)` for a transaction dict: `print_title`,
`print_dict`, then a blank line (`print_title`/`print_dict` are pretty-print
utilities outside `src/`; only that they print the content matters here). -/
def print_request_tx (title : String) (content : Transaction) : List ConsoleEffect :=
  [.printLine title, .printDictTx content, .printLine ""]

/-- `_print_request(title, content)` for a query dict. -/
def print_request_call (title : String) (content : Call) : List ConsoleEffect :=
  [.printLine title, .printDictCall content, .printLine ""]

/-- `_confirm_callback(content, yes)`: print the request; if `yes` is not
set, read one line (`input("> Continue? [Y/n]")`, the line supplied here as
`stdin`) and return `False` exactly when it equals `"n"`; otherwise return
`True`. -/
def confirm_callback (content : Transaction) (yes : Bool) (stdin : String) :
    List ConsoleEffect × Bool :=
  let pr := print_request_tx "Request" content
  if yes then
    (pr, true)
  else if stdin = "n" then
    (pr ++ [.readLine "> Continue? [Y/n]"], false)
  else
    (pr ++ [.readLine "> Continue? [Y/n]"], true)

/-- The reader callback `functools.partial(_print_request, "Request")`: the
Python function returns `None` (falsy), modelled as `false`;
`PrepReader._call` discards the value anyway. -/
def print_request_hook (c : Call) : List ConsoleEffect × Bool :=
  (print_request_call "Request" c, false)

/-- `create_reader(url, nid)`: URL resolution and the `IconService` handle
are external, so the handle is passed in; the reader starts with an empty
callback slot. -/
def create_reader (service : IconService) (nid : Nat) : PrepReader :=
  ⟨service, nid, EOA_ADDRESS, none⟩

/-- `create_reader_by_args`: a reader whose hook is the auto-print
callback. -/
def create_reader_by_args (service : IconService) (nid : Nat) : PrepReader :=
  (create_reader service nid).set_on_send_request print_request_hook

/-- Outcome of `KeyWallet.load(keystore_path, password)`, an external
collaborator: success, the `KeyStoreException` the code catches, or any
other exception. -/
inductive LoadResult where
  | ok (wallet : Wallet)
  | keyStoreException (msg : String)
  | otherError (msg : String)
deriving Repr

/-- Outcome of writer-session construction: a writer, an intentional
process exit, or a propagated exception. -/
inductive CreateWriterOutcome where
  | ok (writer : PrepWriter)
  | exited (code : Nat)
  | raised (msg : String)

/-- `create_writer(url, nid, keystore_path, password)`: URL resolution and
the service handle are external (passed in), as is the keystore load, whose
outcome is the `load` argument.  On `KeyStoreException` the code prints
`e.args[0]` and calls `sys.exit(1)`; any other exception propagates; on
success it returns a `PrepWriter` with an empty callback slot. -/
def create_writer (service : IconService) (nid : Nat) (load : LoadResult) :
    List Effect × CreateWriterOutcome :=
  match load with
  | .ok wallet => ([], .ok ⟨service, wallet, nid, none⟩)
  | .keyStoreException msg => ([Effect.printLine msg, Effect.exitProc 1], .exited 1)
  | .otherError msg => ([], .raised msg)

/-- `create_writer_by_args`: construct the writer and register
`functools.partial(_confirm_callback, yes=yes)` as its hook (the operator's
answer line is supplied as `stdin`). -/
def create_writer_by_args (service : IconService) (nid : Nat) (load : LoadResult)
    (yes : Bool) (stdin : String) : List Effect × CreateWriterOutcome :=
  match create_writer service nid load with
  | (es, .ok w) =>
    (es, .ok (w.set_on_send_request (fun content => confirm_callback content yes stdin)))
  | other => other

/-- A config/args value: Python strings, ints, or `None`. -/
inductive CVal where
  | s (v : String)
  | n (v : Int)
  | none_
deriving DecidableEq, Repr

/-- A config dict (`get_default_config()` result or a loaded JSON file):
an association list keyed by strings. -/
abbrev Conf := List (String × CVal)

/-- An argparse namespace: a key absent from the list models a missing
attribute (`hasattr` false); `CVal.none_` models an attribute set to
`None`. -/
abbrev Args := List (String × CVal)

/-- `conf[k] = v` on a dict modelled as an association list: overwrite the
existing binding or append a new one. -/
def conf_set (conf : Conf) (k : String) (v : CVal) : Conf :=
  if (conf.lookup k).isSome then
    conf.map (fun kv => if kv.1 = k then (k, v) else kv)
  else
    conf ++ [(k, v)]

/-- The `for k in tmp_conf: conf[k] = tmp_conf[k]` overlay loop of
`_get_common_args`. -/
def dict_update (conf tmp : Conf) : Conf :=
  tmp.foldl (fun c kv => conf_set c kv.1 kv.2) conf

/-- `_replace_attribute(attr, args, conf)`: the CLI value when the attribute
is present and not `None`, otherwise the underlying config value
(`none` models the `KeyError` of a key missing from both). -/
def replace_attribute (attr : String) (args : Args) (conf : Conf) : Option CVal :=
  match args.lookup attr with
  | some v => if v = CVal.none_ then conf.lookup attr else some v
  | none => conf.lookup attr

/-- Modelled from the spec: `get_url` (in `utils.utils`, not under `src/`)
resolves named network shortcuts to full endpoint URLs and passes any other
input through unchanged. -/
def NETWORK_SHORTCUTS : List (String × String) :=
  [("mainnet", "https://ctz.solidwallet.io/api/v3"),
   ("testnet", "https://test-ctz.solidwallet.io/api/v3")]

/-- Modelled from the spec: the URL default/alias resolution. -/
def get_url (url : String) : String :=
  match NETWORK_SHORTCUTS.lookup url with
  | some full => full
  | none => url

/-- `get_url` lifted to the optional string-or-int values of the config
layer; non-string values pass through. -/
def get_url_cval : Option CVal → Option CVal
  | some (.s u) => some (.s (get_url u))
  | v => v

/-- The `hasattr(args, 'config') and args.config is not None` guard of
`_get_common_args`. -/
def config_requested (args : Args) : Bool :=
  match args.lookup "config" with
  | some v => if v = CVal.none_ then false else true
  | none => false

/-- `_get_common_args(args)`: overlay the built-in defaults
(`get_default_config()`, outside `src/`, passed in as `defaults`) with the
JSON config file content (`json.load` result passed in as `file_conf`) when
a config path was supplied, then resolve `url` (through `get_url`), `nid`
and `keystore` with CLI precedence via `_replace_attribute`. -/
def get_common_args (defaults : Conf) (args : Args) (file_conf : Conf) :
    Option CVal × Option CVal × Option CVal :=
  let conf := if config_requested args then dict_update defaults file_conf else defaults
  (get_url_cval (replace_attribute "url" args conf),
   replace_attribute "nid" args conf,
   replace_attribute "keystore" args conf)

/-- The envelope a write dispatch hands to its hook, as `PrepWriter._call`
builds it: `TxHandler.build_tx` on a fresh handler with recipient
`ZERO_ADDRESS`. -/
def PrepWriter.built_tx (w : PrepWriter) (method : String) (params : Params)
    (step_limit value : Nat) : Transaction :=
  w.create_tx_handler.build_tx w.owner ZERO_ADDRESS method params step_limit value

/-- The envelope recorded by the first hook-invocation effect of a trace. -/
def trace_envelope : List Effect → Option Transaction
  | Effect.hookTx t :: _ => some t
  | _ => none

/-- A concrete RPC client for witnesses. -/
def svc0 : IconService :=
  ⟨fun _ => "tx-response", fun _ => "query-response",
   fun _ => "tx-result", fun _ => "tx-record"⟩

/-- A concrete wallet for witnesses. -/
def w0 : Wallet := ⟨"hx1111111111111111111111111111111111111111"⟩

/-- A hook that silently approves every envelope. -/
def hookYes : TxHook := fun _ => ([], true)

/-- A hook that silently refuses every envelope. -/
def hookNo : TxHook := fun _ => ([], false)

/-- A concrete query hook for witnesses. -/
def chook0 : CallHook := fun _ => ([], false)

/-- A concrete transaction for witnesses. -/
def tx0 : Transaction :=
  ⟨"hxsender", ZERO_ADDRESS, DEFAULT_STEP_LIMIT, 3, 1, "registerPRep", [], 0⟩

theorem consoleEffect_not_sign (e : ConsoleEffect) : e.toEffect.isSign = false := by
  cases e <;> rfl

theorem consoleEffect_not_sendTx (e : ConsoleEffect) : e.toEffect.isSendTx = false := by
  cases e <;> rfl

theorem consoleEffect_not_hookTx (e : ConsoleEffect) : e.toEffect.isHookTx = false := by
  cases e <;> rfl

theorem consoleEffect_not_hookCall (e : ConsoleEffect) : e.toEffect.isHookCall = false := by
  cases e <;> rfl

theorem countP_map_console_zero (p : Effect → Bool)
    (hp : ∀ e : ConsoleEffect, p e.toEffect = false) (l : List ConsoleEffect) :
    (l.map ConsoleEffect.toEffect).countP p = 0 := by
  rw [List.countP_map]
  refine List.countP_eq_zero.mpr ?_
  intro a _
  simp [Function.comp, hp a]

/-- Unfolding of a write dispatch through a registered hook: the trace starts
with the hook invocation on the built envelope, followed by the hook's own
console effects, and on approval a signing and a send. -/
theorem writer_call_some_eq (service : IconService) (owner : Wallet) (nid : Nat)
    (f : TxHook) (method : String) (p : Params) (limit value : Nat) :
    PrepWriter.call ⟨service, owner, nid, some f⟩ method p limit value =
      (if (f (PrepWriter.built_tx ⟨service, owner, nid, some f⟩ method p limit value)).2 then
        (Effect.hookTx (PrepWriter.built_tx ⟨service, owner, nid, some f⟩ method p limit value) ::
            (f (PrepWriter.built_tx ⟨service, owner, nid, some f⟩ method p limit value)).1.map
              ConsoleEffect.toEffect ++
            [Effect.sign (PrepWriter.built_tx ⟨service, owner, nid, some f⟩ method p limit value),
             Effect.sendTx ⟨PrepWriter.built_tx ⟨service, owner, nid, some f⟩ method p limit value,
               owner⟩],
         some (service.send_transaction
           ⟨PrepWriter.built_tx ⟨service, owner, nid, some f⟩ method p limit value, owner⟩))
      else
        (Effect.hookTx (PrepWriter.built_tx ⟨service, owner, nid, some f⟩ method p limit value) ::
            (f (PrepWriter.built_tx ⟨service, owner, nid, some f⟩ method p limit value)).1.map
              ConsoleEffect.toEffect,
         none)) := by
  simp only [PrepWriter.call, PrepWriter.built_tx, PrepWriter.create_tx_handler,
    TxHandler.call, TxHandler.call_tx, TxHandler.call_on_send_request]

theorem writer_call_hook_true (service : IconService) (owner : Wallet) (nid : Nat)
    (f : TxHook) (method : String) (p : Params) (limit value : Nat)
    (htrue : (f (PrepWriter.built_tx ⟨service, owner, nid, some f⟩ method p limit value)).2 = true) :
    (PrepWriter.call ⟨service, owner, nid, some f⟩ method p limit value).1.countP Effect.isSign = 1 ∧
    (PrepWriter.call ⟨service, owner, nid, some f⟩ method p limit value).1.countP Effect.isSendTx = 1 ∧
    (PrepWriter.call ⟨service, owner, nid, some f⟩ method p limit value).2 =
      some (service.send_transaction
        ⟨PrepWriter.built_tx ⟨service, owner, nid, some f⟩ method p limit value, owner⟩) := by
  rw [writer_call_some_eq, htrue]
  simp only [if_true, List.countP_cons, List.countP_append,
    countP_map_console_zero Effect.isSign consoleEffect_not_sign,
    countP_map_console_zero Effect.isSendTx consoleEffect_not_sendTx]
  simp [Effect.isSign, Effect.isSendTx, List.countP_cons]

theorem writer_call_hook_false (service : IconService) (owner : Wallet) (nid : Nat)
    (f : TxHook) (method : String) (p : Params) (limit value : Nat)
    (hfalse : (f (PrepWriter.built_tx ⟨service, owner, nid, some f⟩ method p limit value)).2 = false) :
    (PrepWriter.call ⟨service, owner, nid, some f⟩ method p limit value).1.countP Effect.isSign = 0 ∧
    (PrepWriter.call ⟨service, owner, nid, some f⟩ method p limit value).1.countP Effect.isSendTx = 0 ∧
    (PrepWriter.call ⟨service, owner, nid, some f⟩ method p limit value).2 = none := by
  rw [writer_call_some_eq, hfalse]
  simp only [if_false, Bool.false_eq_true, List.countP_cons,
    countP_map_console_zero Effect.isSign consoleEffect_not_sign,
    countP_map_console_zero Effect.isSendTx consoleEffect_not_sendTx]
  simp [Effect.isSign, Effect.isSendTx]

theorem writer_call_trace_envelope (service : IconService) (owner : Wallet) (nid : Nat)
    (f : TxHook) (method : String) (p : Params) (limit value : Nat) :
    trace_envelope (PrepWriter.call ⟨service, owner, nid, some f⟩ method p limit value).1 =
      some (PrepWriter.built_tx ⟨service, owner, nid, some f⟩ method p limit value) := by
  rw [writer_call_some_eq]
  cases (f (PrepWriter.built_tx ⟨service, owner, nid, some f⟩ method p limit value)).2 <;>
    simp [trace_envelope]

/-- C1: for each of the four write operations, when the registered hook
approves the built envelope, the dispatch performs exactly one signing and
exactly one `send_transaction` call, and returns the RPC client's response
unchanged. -/
theorem write_hook_true_one_sign_one_send (service : IconService) (owner : Wallet)
    (nid : Nat) (f : TxHook) (p q g : Params) :
    ((f (PrepWriter.built_tx ⟨service, owner, nid, some f⟩ "registerPRep" p
          DEFAULT_STEP_LIMIT REGISTER_STAKE)).2 = true →
      (PrepWriter.register_prep ⟨service, owner, nid, some f⟩ p).1.countP Effect.isSign = 1 ∧
      (PrepWriter.register_prep ⟨service, owner, nid, some f⟩ p).1.countP Effect.isSendTx = 1 ∧
      (PrepWriter.register_prep ⟨service, owner, nid, some f⟩ p).2 =
        some (service.send_transaction
          ⟨PrepWriter.built_tx ⟨service, owner, nid, some f⟩ "registerPRep" p
            DEFAULT_STEP_LIMIT REGISTER_STAKE, owner⟩)) ∧
    ((f (PrepWriter.built_tx ⟨service, owner, nid, some f⟩ "unregisterPRep" []
          DEFAULT_STEP_LIMIT 0)).2 = true →
      (PrepWriter.unregister_prep ⟨service, owner, nid, some f⟩).1.countP Effect.isSign = 1 ∧
      (PrepWriter.unregister_prep ⟨service, owner, nid, some f⟩).1.countP Effect.isSendTx = 1 ∧
      (PrepWriter.unregister_prep ⟨service, owner, nid, some f⟩).2 =
        some (service.send_transaction
          ⟨PrepWriter.built_tx ⟨service, owner, nid, some f⟩ "unregisterPRep" []
            DEFAULT_STEP_LIMIT 0, owner⟩)) ∧
    ((f (PrepWriter.built_tx ⟨service, owner, nid, some f⟩ "setPRep" q
          DEFAULT_STEP_LIMIT 0)).2 = true →
      (PrepWriter.set_prep ⟨service, owner, nid, some f⟩ q).1.countP Effect.isSign = 1 ∧
      (PrepWriter.set_prep ⟨service, owner, nid, some f⟩ q).1.countP Effect.isSendTx = 1 ∧
      (PrepWriter.set_prep ⟨service, owner, nid, some f⟩ q).2 =
        some (service.send_transaction
          ⟨PrepWriter.built_tx ⟨service, owner, nid, some f⟩ "setPRep" q
            DEFAULT_STEP_LIMIT 0, owner⟩)) ∧
    ((f (PrepWriter.built_tx ⟨service, owner, nid, some f⟩ "setGovernanceVariables" g
          DEFAULT_STEP_LIMIT 0)).2 = true →
      (PrepWriter.set_governance_variables ⟨service, owner, nid, some f⟩ g).1.countP
        Effect.isSign = 1 ∧
      (PrepWriter.set_governance_variables ⟨service, owner, nid, some f⟩ g).1.countP
        Effect.isSendTx = 1 ∧
      (PrepWriter.set_governance_variables ⟨service, owner, nid, some f⟩ g).2 =
        some (service.send_transaction
          ⟨PrepWriter.built_tx ⟨service, owner, nid, some f⟩ "setGovernanceVariables" g
            DEFAULT_STEP_LIMIT 0, owner⟩)) := by
  exact ⟨fun h => writer_call_hook_true service owner nid f "registerPRep" p
      DEFAULT_STEP_LIMIT REGISTER_STAKE h,
    fun h => writer_call_hook_true service owner nid f "unregisterPRep" []
      DEFAULT_STEP_LIMIT 0 h,
    fun h => writer_call_hook_true service owner nid f "setPRep" q
      DEFAULT_STEP_LIMIT 0 h,
    fun h => writer_call_hook_true service owner nid f "setGovernanceVariables" g
      DEFAULT_STEP_LIMIT 0 h⟩

/-- Witness for C1 at a concrete approving hook. -/
theorem write_hook_true_one_sign_one_send_witness :
    (PrepWriter.register_prep ⟨svc0, w0, 1, some hookYes⟩ []).1.countP Effect.isSign = 1 ∧
    (PrepWriter.unregister_prep ⟨svc0, w0, 1, some hookYes⟩).1.countP Effect.isSendTx = 1 ∧
    (PrepWriter.set_prep ⟨svc0, w0, 1, some hookYes⟩ []).2 =
      some (svc0.send_transaction
        ⟨PrepWriter.built_tx ⟨svc0, w0, 1, some hookYes⟩ "setPRep" []
          DEFAULT_STEP_LIMIT 0, w0⟩) ∧
    (PrepWriter.set_governance_variables ⟨svc0, w0, 1, some hookYes⟩ []).1.countP
      Effect.isSign = 1 := by
  have h := write_hook_true_one_sign_one_send svc0 w0 1 hookYes [] [] []
  exact ⟨(h.1 rfl).1, (h.2.1 rfl).2.1, (h.2.2.1 rfl).2.2, (h.2.2.2 rfl).1⟩

/-- C2: for each of the four write operations, when the registered hook
refuses the built envelope, no signing and no `send_transaction` call occur
and the dispatch returns an absent result instead of raising. -/
theorem write_hook_false_no_send (service : IconService) (owner : Wallet)
    (nid : Nat) (f : TxHook) (p q g : Params) :
    ((f (PrepWriter.built_tx ⟨service, owner, nid, some f⟩ "registerPRep" p
          DEFAULT_STEP_LIMIT REGISTER_STAKE)).2 = false →
      (PrepWriter.register_prep ⟨service, owner, nid, some f⟩ p).1.countP Effect.isSign = 0 ∧
      (PrepWriter.register_prep ⟨service, owner, nid, some f⟩ p).1.countP Effect.isSendTx = 0 ∧
      (PrepWriter.register_prep ⟨service, owner, nid, some f⟩ p).2 = none) ∧
    ((f (PrepWriter.built_tx ⟨service, owner, nid, some f⟩ "unregisterPRep" []
          DEFAULT_STEP_LIMIT 0)).2 = false →
      (PrepWriter.unregister_prep ⟨service, owner, nid, some f⟩).1.countP Effect.isSign = 0 ∧
      (PrepWriter.unregister_prep ⟨service, owner, nid, some f⟩).1.countP Effect.isSendTx = 0 ∧
      (PrepWriter.unregister_prep ⟨service, owner, nid, some f⟩).2 = none) ∧
    ((f (PrepWriter.built_tx ⟨service, owner, nid, some f⟩ "setPRep" q
          DEFAULT_STEP_LIMIT 0)).2 = false →
      (PrepWriter.set_prep ⟨service, owner, nid, some f⟩ q).1.countP Effect.isSign = 0 ∧
      (PrepWriter.set_prep ⟨service, owner, nid, some f⟩ q).1.countP Effect.isSendTx = 0 ∧
      (PrepWriter.set_prep ⟨service, owner, nid, some f⟩ q).2 = none) ∧
    ((f (PrepWriter.built_tx ⟨service, owner, nid, some f⟩ "setGovernanceVariables" g
          DEFAULT_STEP_LIMIT 0)).2 = false →
      (PrepWriter.set_governance_variables ⟨service, owner, nid, some f⟩ g).1.countP
        Effect.isSign = 0 ∧
      (PrepWriter.set_governance_variables ⟨service, owner, nid, some f⟩ g).1.countP
        Effect.isSendTx = 0 ∧
      (PrepWriter.set_governance_variables ⟨service, owner, nid, some f⟩ g).2 = none) := by
  exact ⟨fun h => writer_call_hook_false service owner nid f "registerPRep" p
      DEFAULT_STEP_LIMIT REGISTER_STAKE h,
    fun h => writer_call_hook_false service owner nid f "unregisterPRep" []
      DEFAULT_STEP_LIMIT 0 h,
    fun h => writer_call_hook_false service owner nid f "setPRep" q
      DEFAULT_STEP_LIMIT 0 h,
    fun h => writer_call_hook_false service owner nid f "setGovernanceVariables" g
      DEFAULT_STEP_LIMIT 0 h⟩

/-- Witness for C2 at a concrete refusing hook. -/
theorem write_hook_false_no_send_witness :
    (PrepWriter.register_prep ⟨svc0, w0, 1, some hookNo⟩ []).1.countP Effect.isSendTx = 0 ∧
    (PrepWriter.unregister_prep ⟨svc0, w0, 1, some hookNo⟩).2 = none ∧
    (PrepWriter.set_prep ⟨svc0, w0, 1, some hookNo⟩ []).1.countP Effect.isSign = 0 ∧
    (PrepWriter.set_governance_variables ⟨svc0, w0, 1, some hookNo⟩ []).2 = none := by
  have h := write_hook_false_no_send svc0 w0 1 hookNo [] [] []
  exact ⟨(h.1 rfl).2.1, (h.2.1 rfl).2.2, (h.2.2.1 rfl).1, (h.2.2.2 rfl).2.2⟩

/-- C3: on a writer with no hook registered, `_call_on_send_request` returns
the default `False`, so each write operation performs no effect at all —
in particular no signing and no send — and returns an absent result. -/
theorem writer_no_hook_skips_send (service : IconService) (owner : Wallet)
    (nid : Nat) (p q g : Params) (t : Transaction) :
    TxHandler.call_on_send_request ⟨service, nid, none⟩ t = ([], false) ∧
    PrepWriter.register_prep ⟨service, owner, nid, none⟩ p = ([], none) ∧
    PrepWriter.unregister_prep ⟨service, owner, nid, none⟩ = ([], none) ∧
    PrepWriter.set_prep ⟨service, owner, nid, none⟩ q = ([], none) ∧
    PrepWriter.set_governance_variables ⟨service, owner, nid, none⟩ g = ([], none) :=
  ⟨rfl, rfl, rfl, rfl, rfl⟩

/-- C4: each of the four write operations hands its hook an envelope whose
recipient is the fixed governance contract address, whose network id is the
session's configured nid, whose sender is the session owner's address, and
whose protocol version is 3. -/
theorem write_envelope_routing (service : IconService) (owner : Wallet)
    (nid : Nat) (f : TxHook) (p q g : Params) :
    trace_envelope (PrepWriter.register_prep ⟨service, owner, nid, some f⟩ p).1 =
      some { from_ := owner.get_address, to_ := GOVERNANCE_ADDRESS,
             stepLimit := DEFAULT_STEP_LIMIT, version := 3, nid := nid,
             method := "registerPRep", params := p, value := REGISTER_STAKE } ∧
    trace_envelope (PrepWriter.unregister_prep ⟨service, owner, nid, some f⟩).1 =
      some { from_ := owner.get_address, to_ := GOVERNANCE_ADDRESS,
             stepLimit := DEFAULT_STEP_LIMIT, version := 3, nid := nid,
             method := "unregisterPRep", params := [], value := 0 } ∧
    trace_envelope (PrepWriter.set_prep ⟨service, owner, nid, some f⟩ q).1 =
      some { from_ := owner.get_address, to_ := GOVERNANCE_ADDRESS,
             stepLimit := DEFAULT_STEP_LIMIT, version := 3, nid := nid,
             method := "setPRep", params := q, value := 0 } ∧
    trace_envelope (PrepWriter.set_governance_variables ⟨service, owner, nid, some f⟩ g).1 =
      some { from_ := owner.get_address, to_ := GOVERNANCE_ADDRESS,
             stepLimit := DEFAULT_STEP_LIMIT, version := 3, nid := nid,
             method := "setGovernanceVariables", params := g, value := 0 } :=
  ⟨writer_call_trace_envelope service owner nid f "registerPRep" p
      DEFAULT_STEP_LIMIT REGISTER_STAKE,
   writer_call_trace_envelope service owner nid f "unregisterPRep" []
      DEFAULT_STEP_LIMIT 0,
   writer_call_trace_envelope service owner nid f "setPRep" q
      DEFAULT_STEP_LIMIT 0,
   writer_call_trace_envelope service owner nid f "setGovernanceVariables" g
      DEFAULT_STEP_LIMIT 0⟩

/-- C5: `register_prep` always builds its envelope with
`value = 2000 * 10 ^ 18` base units; `unregister_prep`, `set_prep` and
`set_governance_variables` always build `value = 0`; all four use the
default step limit `0x10000000`. -/
theorem write_envelope_value_and_step_limit (service : IconService) (owner : Wallet)
    (nid : Nat) (f : TxHook) (p q g : Params) :
    (trace_envelope (PrepWriter.register_prep ⟨service, owner, nid, some f⟩ p).1).map
      Transaction.value = some (2000 * 10 ^ 18) ∧
    (trace_envelope (PrepWriter.unregister_prep ⟨service, owner, nid, some f⟩).1).map
      Transaction.value = some 0 ∧
    (trace_envelope (PrepWriter.set_prep ⟨service, owner, nid, some f⟩ q).1).map
      Transaction.value = some 0 ∧
    (trace_envelope (PrepWriter.set_governance_variables ⟨service, owner, nid, some f⟩ g).1).map
      Transaction.value = some 0 ∧
    (trace_envelope (PrepWriter.register_prep ⟨service, owner, nid, some f⟩ p).1).map
      Transaction.stepLimit = some 0x10000000 ∧
    (trace_envelope (PrepWriter.unregister_prep ⟨service, owner, nid, some f⟩).1).map
      Transaction.stepLimit = some 0x10000000 ∧
    (trace_envelope (PrepWriter.set_prep ⟨service, owner, nid, some f⟩ q).1).map
      Transaction.stepLimit = some 0x10000000 ∧
    (trace_envelope (PrepWriter.set_governance_variables ⟨service, owner, nid, some f⟩ g).1).map
      Transaction.stepLimit = some 0x10000000 := by
  have hr := writer_call_trace_envelope service owner nid f "registerPRep" p
    DEFAULT_STEP_LIMIT REGISTER_STAKE
  have hu := writer_call_trace_envelope service owner nid f "unregisterPRep" []
    DEFAULT_STEP_LIMIT 0
  have hs := writer_call_trace_envelope service owner nid f "setPRep" q
    DEFAULT_STEP_LIMIT 0
  have hg := writer_call_trace_envelope service owner nid f "setGovernanceVariables" g
    DEFAULT_STEP_LIMIT 0
  refine ⟨?_, ?_, ?_, ?_, ?_, ?_, ?_, ?_⟩
  · simp only [PrepWriter.register_prep]; rw [hr]; rfl
  · simp only [PrepWriter.unregister_prep]; rw [hu]; rfl
  · simp only [PrepWriter.set_prep]; rw [hs]; rfl
  · simp only [PrepWriter.set_governance_variables]; rw [hg]; rfl
  · simp only [PrepWriter.register_prep]; rw [hr]; rfl
  · simp only [PrepWriter.unregister_prep]; rw [hu]; rfl
  · simp only [PrepWriter.set_prep]; rw [hs]; rfl
  · simp only [PrepWriter.set_governance_variables]; rw [hg]; rfl

/-- C6: config resolution overlays built-in defaults with the optional JSON
config file and then with CLI values: a present non-`None` CLI value wins, a
`None` or absent CLI attribute falls through to the underlying value; with
defaults `{url:"A", nid:1}`, config file `{url:"B"}` and CLI arg `nid=2`,
the resolved result is `{url:"B", nid:2}`. -/
theorem config_resolution_precedence :
    (∀ (attr : String) (args : Args) (conf : Conf) (v : CVal),
        args.lookup attr = some v → v ≠ CVal.none_ →
        replace_attribute attr args conf = some v) ∧
    (∀ (attr : String) (args : Args) (conf : Conf),
        args.lookup attr = some CVal.none_ →
        replace_attribute attr args conf = conf.lookup attr) ∧
    (∀ (attr : String) (args : Args) (conf : Conf),
        args.lookup attr = none →
        replace_attribute attr args conf = conf.lookup attr) ∧
    get_common_args [("url", CVal.s "A"), ("nid", CVal.n 1)]
        [("config", CVal.s "conf.json"), ("nid", CVal.n 2)] [("url", CVal.s "B")] =
      (some (CVal.s "B"), some (CVal.n 2), none) := by
  refine ⟨?_, ?_, ?_, ?_⟩
  · intro attr args conf v hl hv
    simp [replace_attribute, hl, hv]
  · intro attr args conf hl
    simp [replace_attribute, hl]
  · intro attr args conf hl
    simp [replace_attribute, hl]
  · rfl

/-- Witness for C6: a present non-`None` CLI value wins; `None` and absent
attributes fall through. -/
theorem config_resolution_precedence_witness :
    replace_attribute "nid" [("nid", CVal.n 2)] [("nid", CVal.n 1)] = some (CVal.n 2) ∧
    replace_attribute "url" [("url", CVal.none_)] [("url", CVal.s "A")] = some (CVal.s "A") ∧
    replace_attribute "url" [] [("url", CVal.s "A")] = some (CVal.s "A") := by
  have h := config_resolution_precedence
  exact ⟨h.1 "nid" _ _ _ rfl (by decide), h.2.1 "url" _ _ rfl, h.2.2.1 "url" _ _ rfl⟩

/-- C7: when the keystore load raises `KeyStoreException`, writer-session
construction prints the underlying message and terminates with exit status
1, without any network call; any other failure propagates and a successful
load yields the writer. -/
theorem create_writer_keystore_failure_exits (service : IconService) (nid : Nat)
    (msg emsg : String) (wallet : Wallet) :
    create_writer service nid (LoadResult.keyStoreException msg) =
      ([Effect.printLine msg, Effect.exitProc 1], CreateWriterOutcome.exited 1) ∧
    (create_writer service nid (LoadResult.keyStoreException msg)).1.countP
      Effect.isNetwork = 0 ∧
    create_writer service nid (LoadResult.otherError emsg) =
      ([], CreateWriterOutcome.raised emsg) ∧
    create_writer service nid (LoadResult.ok wallet) =
      ([], CreateWriterOutcome.ok ⟨service, wallet, nid, none⟩) :=
  ⟨rfl, rfl, rfl, rfl⟩

/-- C8: the confirmation callback prints the pending envelope; with the
auto-yes flag it returns `true` without reading input; otherwise it reads
one line and returns `false` exactly when the line is `"n"` — any other
input, including the empty string, `"N"` or `"no"`, yields `true`. -/
theorem confirm_callback_behavior (content : Transaction) (stdin : String) :
    confirm_callback content true stdin = (print_request_tx "Request" content, true) ∧
    ((confirm_callback content false stdin).2 = false ↔ stdin = "n") ∧
    (confirm_callback content false stdin).1 =
      print_request_tx "Request" content ++ [ConsoleEffect.readLine "> Continue? [Y/n]"] ∧
    (confirm_callback content false "").2 = true ∧
    (confirm_callback content false "N").2 = true ∧
    (confirm_callback content false "no").2 = true := by
  refine ⟨rfl, ?_, ?_, ?_, ?_, ?_⟩
  · by_cases h : stdin = "n" <;> simp [confirm_callback, h]
  · by_cases h : stdin = "n" <;> simp [confirm_callback, h]
  · rfl
  · rfl
  · rfl

/-- Witness for C8: typing exactly `n` aborts. -/
theorem confirm_callback_behavior_witness :
    (confirm_callback tx0 false "n").2 = false :=
  ((confirm_callback_behavior tx0 "n").2.1).mpr rfl

theorem reader_call_some_eq (service : IconService) (nid : Nat) (addr : String)
    (f : CallHook) (method : String) (ps : Option Params) :
    PrepReader.call ⟨service, nid, addr, some f⟩ method ps =
      (Effect.hookCall ⟨addr, ZERO_ADDRESS, method, ps⟩ ::
         (f ⟨addr, ZERO_ADDRESS, method, ps⟩).1.map ConsoleEffect.toEffect ++
         [Effect.rpcQuery ⟨addr, ZERO_ADDRESS, method, ps⟩],
       .ok (service.call ⟨addr, ZERO_ADDRESS, method, ps⟩)) := rfl

theorem reader_call_counts (service : IconService) (nid : Nat) (addr : String)
    (f : CallHook) (method : String) (ps : Option Params) :
    (PrepReader.call ⟨service, nid, addr, some f⟩ method ps).1.countP Effect.isHookCall = 1 ∧
    (PrepReader.call ⟨service, nid, addr, some f⟩ method ps).1.countP Effect.isSign = 0 ∧
    (PrepReader.call ⟨service, nid, addr, some f⟩ method ps).1.countP Effect.isSendTx = 0 := by
  rw [reader_call_some_eq]
  simp only [List.countP_cons, List.countP_append,
    countP_map_console_zero Effect.isHookCall consoleEffect_not_hookCall,
    countP_map_console_zero Effect.isSign consoleEffect_not_sign,
    countP_map_console_zero Effect.isSendTx consoleEffect_not_sendTx]
  simp [Effect.isHookCall, Effect.isSign, Effect.isSendTx]

/-- C9: `get_prep` and `get_preps` invoke the registered hook exactly once,
on the built query envelope, never sign or send a transaction (the wallet is
never involved), dispatch via the RPC client's query call and return its
result whatever the hook returned; `get_tx_result` and `get_tx_by_hash`
invoke the hook zero times. -/
theorem reader_queries_hook_once_never_abort (service : IconService) (nid : Nat)
    (addr : String) (f : CallHook) (a hsh : String) (ps : Option Params) :
    (PrepReader.get_prep ⟨service, nid, addr, some f⟩ a).1.countP Effect.isHookCall = 1 ∧
    (PrepReader.get_prep ⟨service, nid, addr, some f⟩ a).1.head? =
      some (Effect.hookCall ⟨addr, ZERO_ADDRESS, "getPRep", some [("address", a)]⟩) ∧
    (PrepReader.get_prep ⟨service, nid, addr, some f⟩ a).2 =
      .ok (service.call ⟨addr, ZERO_ADDRESS, "getPRep", some [("address", a)]⟩) ∧
    (PrepReader.get_prep ⟨service, nid, addr, some f⟩ a).1.countP Effect.isSign = 0 ∧
    (PrepReader.get_prep ⟨service, nid, addr, some f⟩ a).1.countP Effect.isSendTx = 0 ∧
    (PrepReader.get_preps ⟨service, nid, addr, some f⟩ ps).1.countP Effect.isHookCall = 1 ∧
    (PrepReader.get_preps ⟨service, nid, addr, some f⟩ ps).1.head? =
      some (Effect.hookCall ⟨addr, ZERO_ADDRESS, "getPReps", ps⟩) ∧
    (PrepReader.get_preps ⟨service, nid, addr, some f⟩ ps).2 =
      .ok (service.call ⟨addr, ZERO_ADDRESS, "getPReps", ps⟩) ∧
    (PrepReader.get_preps ⟨service, nid, addr, some f⟩ ps).1.countP Effect.isSign = 0 ∧
    (PrepReader.get_preps ⟨service, nid, addr, some f⟩ ps).1.countP Effect.isSendTx = 0 ∧
    (PrepReader.get_tx_result ⟨service, nid, addr, some f⟩ hsh).1.countP
      Effect.isHookCall = 0 ∧
    (PrepReader.get_tx_by_hash ⟨service, nid, addr, some f⟩ hsh).1.countP
      Effect.isHookCall = 0 := by
  have h1 := reader_call_counts service nid addr f "getPRep" (some [("address", a)])
  have h2 := reader_call_counts service nid addr f "getPReps" ps
  exact ⟨h1.1, rfl, rfl, h1.2.1, h1.2.2, h2.1, rfl, rfl, h2.2.1, h2.2.2, rfl, rfl⟩

/-- C10: a reader fresh from `create_reader` has an empty callback slot, and
every `get_prep`/`get_preps` call on it fails with the `None`-not-callable
error before any RPC query is dispatched (empty effect trace). -/
theorem reader_no_hook_raises_before_query (service : IconService) (nid : Nat)
    (a : String) (ps : Option Params) :
    (create_reader service nid).on_send_request = none ∧
    PrepReader.get_prep (create_reader service nid) a =
      ([], .error PyError.noneNotCallable) ∧
    PrepReader.get_preps (create_reader service nid) ps =
      ([], .error PyError.noneNotCallable) :=
  ⟨rfl, rfl, rfl⟩

end Preptools
